/-
Verification of the CausalPy `causalpy/pymc_models.py` module.

The module wraps a probabilistic-programming engine (PyMC) behind a
scikit-learn style lifecycle: an abstract `ModelBuilder` base class with
`build_model` / `fit` / `predict` / `score`, and three concrete subclasses
(`WeightedSumFitter`, `LinearRegression`, `InstrumentalVariableRegression`)
whose `build_model` declares priors and a likelihood.

Shallow embedding used here:
* numpy arrays are `NDArray` (1-D or 2-D lists of rationals); the indexing
  operations the source performs (`y[:, 0]`, `X.shape[1]`, `.flatten()`,
  `np.stack(..., axis=1)`) are embedded as `Except`-valued functions that
  raise the corresponding Python errors;
* a PyMC model is a symbolic list of random-variable declarations
  (`RVDecl`) plus coordinates; `pm.MutableData`, `pm.Dirichlet`,
  `pm.Normal`, `pm.HalfNormal`, `pm.LKJCholeskyCov`, `pm.Deterministic`
  and observed likelihoods become constructors of `RVDecl`;
* the inference library's sampling entry points (`pm.sample`,
  `pm.sample_prior_predictive`, `pm.sample_posterior_predictive`) are the
  fields of an abstract `Engine`; inference data (`az.InferenceData`) is a
  symbolic `IData` term, and `freeEngine` is the canonical engine that
  records each call symbolically;
* Python exceptions are the error side of `Except PyErr`; object mutation
  (`self.idata = ...`, `pm.set_data`) is explicit state passing on
  `MBState`.
-/
import Mathlib

/-- Equality of embedded fallible results is decidable. -/
instance {ε α : Type} [DecidableEq ε] [DecidableEq α] :
    DecidableEq (Except ε α) := fun a b =>
  match a, b with
  | .ok x, .ok y =>
    if h : x = y then .isTrue (by rw [h])
    else .isFalse (fun hc => h (Except.ok.inj hc))
  | .error e, .error e2 =>
    if h : e = e2 then .isTrue (by rw [h])
    else .isFalse (fun hc => h (Except.error.inj hc))
  | .ok _, .error _ => .isFalse (fun hc => Except.noConfusion hc)
  | .error _, .ok _ => .isFalse (fun hc => Except.noConfusion hc)

/-- Python exceptions that the embedded code can raise or propagate. -/
inductive PyErr where
  | notImplementedError (msg : String)
  | keyError (key : String)
  | indexError (msg : String)
  | typeError (msg : String)
  | valueError (msg : String)
  | libraryError (msg : String)
deriving DecidableEq, Repr

/-- A numpy array of rank 1 or 2 with rational entries. -/
inductive NDArray where
  | arr1 (v : List ℚ)
  | arr2 (rows : List (List ℚ))
deriving DecidableEq, Repr

/-- `a.shape[0]`: the leading dimension of an array. -/
def NDArray.shape0 : NDArray → Nat
  | .arr1 v => v.length
  | .arr2 rows => rows.length

/-- `a.shape[1]`: the second dimension; raises `IndexError` on a 1-D array
(`tuple index out of range`). -/
def NDArray.shape1 : NDArray → Except PyErr Nat
  | .arr1 _ => .error (.indexError "tuple index out of range")
  | .arr2 rows => .ok (rows.headD []).length

/-- `y[:, 0]`: the first column of a 2-D array.  On a 1-D array numpy raises
`IndexError: too many indices for array`; on a 2-D array with zero columns it
raises `IndexError: index 0 is out of bounds`. -/
def NDArray.col0 : NDArray → Except PyErr NDArray
  | .arr1 _ => .error (.indexError "too many indices for array")
  | .arr2 rows =>
    if rows.all (fun r => !r.isEmpty)
    then .ok (.arr1 (rows.map (fun r => r.headD 0)))
    else .error (.indexError "index 0 is out of bounds for axis 1 with size 0")

/-- `a.flatten()`: row-major flattening to a plain list. -/
def NDArray.flatten : NDArray → List ℚ
  | .arr1 v => v
  | .arr2 rows => rows.flatten

/-- `np.stack(arrays=(a, b), axis=1)` for two 1-D arrays: pairs them into an
(n, 2) array; numpy raises `ValueError` when the lengths differ. -/
def np_stack_axis1 (a b : List ℚ) : Except PyErr NDArray :=
  if a.length = b.length
  then .ok (.arr2 ((a.zip b).map (fun p => [p.1, p.2])))
  else .error (.valueError "all input arrays must have the same shape")

/-- The `dims=` annotation attached to a PyMC variable. -/
inductive Dims where
  | noDims
  | one (d : String)
  | two (d1 d2 : String)
deriving DecidableEq, Repr

/-- Symbolic tensor expressions appearing in `pm.Deterministic` values and as
distribution parameters (references to earlier variables, `pm.math.dot`,
`pt.dot`, transposition, `pt.stack`, constant data). -/
inductive TensorExpr where
  | var (name : String)
  | cholFactor (name : String)
  | dot (a b : TensorExpr)
  | transpose (a : TensorExpr)
  | stack (a b : TensorExpr) (axis : Nat)
  | constArr (v : NDArray)
deriving DecidableEq, Repr

/-- A random-variable / data declaration registered in a PyMC model. -/
inductive RVDecl where
  | mutableData (name : String) (value : NDArray) (dims : Dims)
  | dirichlet (name : String) (a : List ℚ) (dims : Dims)
  | normal (name : String) (mu sigma : ℚ) (dims : Dims)
  | halfNormal (name : String) (sigma : ℚ)
  | lkjCholeskyCov (name : String) (eta : ℚ) (n : Nat)
      (sd_dist_beta : ℚ) (sd_dist_shape : Nat)
  | deterministic (name : String) (value : TensorExpr) (dims : Dims)
  | normalObserved (name : String) (mu sigma : TensorExpr)
      (observed : TensorExpr) (dims : Dims)
  | mvNormalObserved (name : String) (mu chol : TensorExpr)
      (observed : NDArray) (shape_0 shape_1 : Nat)
deriving DecidableEq, Repr

/-- A PyMC model: registered coordinates plus declarations, in order. -/
structure Model where
  coords : List (String × List String)
  decls : List RVDecl
deriving DecidableEq, Repr

/-- The empty model a fresh `pm.Model` (hence a fresh `ModelBuilder`) holds. -/
def Model.empty : Model := { coords := [], decls := [] }

/-- Whether a declaration is mutable data with the given name. -/
def RVDecl.isMutableDataNamed (name : String) : RVDecl → Bool
  | .mutableData n _ _ => n = name
  | _ => false

/-- Replace the value of the mutable data variable called `name`, keeping
its dims; leaves every other declaration unchanged. -/
def RVDecl.setDataValue (name : String) (v : NDArray) : RVDecl → RVDecl
  | .mutableData n old dims =>
      if n = name then .mutableData n v dims else .mutableData n old dims
  | d => d

/-- `pm.set_data` with a singleton dict: re-binds the named mutable data
variable; raises `KeyError` when the model has no such data variable. -/
def pm_set_data (m : Model) (name : String) (v : NDArray) : Except PyErr Model :=
  if m.decls.any (RVDecl.isMutableDataNamed name)
  then .ok { m with decls := m.decls.map (RVDecl.setDataValue name v) }
  else .error (.keyError name)

/-- Keyword arguments forwarded verbatim to `pm.sample`. -/
abbrev Kwargs := List (String × ℚ)

/-- The `coords` dictionary passed to `pm.Model.add_coords`. -/
abbrev Coords := List (String × List String)

/-- Symbolic `az.InferenceData`: either the direct result of an engine call
or an in-place `extend` of one inference data with another. -/
inductive IData where
  | fromSample (kwargs : Kwargs) (m : Model)
  | priorPredictive (m : Model)
  | posteriorPredictive (cond : IData) (var_names : Option (List String)) (m : Model)
  | extended (base addition : IData)
deriving DecidableEq, Repr

/-- The probabilistic-programming engine the wrapper delegates to: the three
sampling entry points of PyMC the module calls.  `sample_posterior_predictive`
receives whatever `self.idata` holds (possibly `None`) and the optional
`var_names` and `progressbar` arguments. -/
structure Engine where
  sample : Kwargs → Model → Except PyErr IData
  sample_prior_predictive : Model → Except PyErr IData
  sample_posterior_predictive :
    Option IData → Option (List String) → Bool → Model → Except PyErr IData

/-- The canonical engine: every call succeeds and returns the symbolic record
of the call, except `sample_posterior_predictive` applied to `None`, which
fails the way the real library does when handed no inference data. -/
def freeEngine : Engine where
  sample := fun kwargs m => .ok (.fromSample kwargs m)
  sample_prior_predictive := fun m => .ok (.priorPredictive m)
  sample_posterior_predictive := fun idata var_names _ m =>
    match idata with
    | some i => .ok (.posteriorPredictive i var_names m)
    | none => .error (.typeError "NoneType object is not iterable")

/-- Samples extracted from inference data:
`az.extract(idata, group=..., var_names=...).T.values`. -/
inductive ExtractedSamples where
  | extractTValues (i : IData) (group : String) (var_name : String)
deriving DecidableEq, Repr

/-- The result of arviz's external `r2_score`: the wrapper only hands it the
(flattened) observations and the extracted posterior-predictive samples. -/
inductive R2Score where
  | r2_score (y_true : List ℚ) (y_pred : ExtractedSamples)
deriving DecidableEq, Repr

/-- The mutable state of a `ModelBuilder` instance: its `idata` attribute
(initially `None`), its stored `sample_kwargs`, and — since `ModelBuilder`
subclasses `pm.Model` — the model's own registered contents. -/
structure MBState where
  idata : Option IData
  sample_kwargs : Kwargs
  model : Model
deriving DecidableEq, Repr

/-- `ModelBuilder.__init__`: `idata = None`, `sample_kwargs` defaults to the
empty dictionary, and the underlying `pm.Model` starts empty. -/
def ModelBuilder.init (sample_kwargs : Option Kwargs) : MBState :=
  { idata := none
    sample_kwargs := sample_kwargs.getD []
    model := Model.empty }

/-- `ModelBuilder.build_model`: the abstract base implementation
unconditionally raises `NotImplementedError`. -/
def ModelBuilder.build_model (_self : MBState) (_X _y : NDArray)
    (_coords : Coords) : Except PyErr Model :=
  .error (.notImplementedError "This method must be implemented by a subclass")

/-- `ModelBuilder._data_setter`: `with self.model: pm.set_data({"X": X})`. -/
def ModelBuilder.data_setter (self : MBState) (X : NDArray) :
    Except PyErr MBState := do
  let m ← pm_set_data self.model "X" X
  .ok { self with model := m }

/-- `ModelBuilder.fit(X, y, coords)`.  `build_model` is the dynamically
dispatched method of the instance's class, passed explicitly.  The body calls
`build_model`, draws the posterior with the stored `sample_kwargs`, extends it
with prior-predictive and posterior-predictive samples, stores the combined
inference data in `self.idata` and returns it. -/
def ModelBuilder.fit (engine : Engine)
    (build_model : MBState → NDArray → NDArray → Coords → Except PyErr Model)
    (self : MBState) (X y : NDArray) (coords : Coords) :
    Except PyErr (MBState × IData) := do
  let m ← build_model self X y coords
  let idata0 ← engine.sample self.sample_kwargs m
  let prior ← engine.sample_prior_predictive m
  let idata1 := IData.extended idata0 prior
  let post ← engine.sample_posterior_predictive (some idata1) none false m
  let idata2 := IData.extended idata1 post
  .ok ({ self with model := m, idata := some idata2 }, idata2)

/-- `ModelBuilder.predict(X)`: re-bind the model's data variable `"X"`, then
sample the posterior predictive of `["y_hat", "mu"]` conditioned on the stored
`self.idata` (with `progressbar=False`), and return those samples without
touching `self.idata`. -/
def ModelBuilder.predict (engine : Engine) (self : MBState) (X : NDArray) :
    Except PyErr (MBState × IData) := do
  let self1 ← ModelBuilder.data_setter self X
  let post_pred ← engine.sample_posterior_predictive
      self1.idata (some ["y_hat", "mu"]) false self1.model
  .ok (self1, post_pred)

/-- `ModelBuilder.score(X, y)`: run `predict`, extract the transposed
`"y_hat"` posterior-predictive samples, and delegate to the external
`r2_score` on the flattened `y`. -/
def ModelBuilder.score (engine : Engine) (self : MBState) (X y : NDArray) :
    Except PyErr (MBState × R2Score) := do
  let r ← ModelBuilder.predict engine self X
  let yhat := ExtractedSamples.extractTValues r.2 "posterior_predictive" "y_hat"
  .ok (r.1, R2Score.r2_score (NDArray.flatten y) yhat)

/-- `WeightedSumFitter.build_model`: adds the coordinates, registers `X` and
the first column of `y` as mutable data, and declares
`beta ~ Dirichlet(1, ..., 1)` over the `X.shape[1]` predictors,
`sigma ~ HalfNormal(1)`, `mu = X @ beta`, and the observed normal likelihood
`y_hat`. -/
def WeightedSumFitter.build_model (self : MBState) (X y : NDArray)
    (coords : Coords) : Except PyErr Model := do
  let m0 : Model := { self.model with coords := self.model.coords ++ coords }
  let n_predictors ← NDArray.shape1 X
  let y0 ← NDArray.col0 y
  .ok { m0 with decls := m0.decls ++
    [ .mutableData "X" X (.two "obs_ind" "coeffs"),
      .mutableData "y" y0 (.one "obs_ind"),
      .dirichlet "beta" (List.replicate n_predictors 1) (.one "coeffs"),
      .halfNormal "sigma" 1,
      .deterministic "mu" (.dot (.var "X") (.var "beta")) (.one "obs_ind"),
      .normalObserved "y_hat" (.var "mu") (.var "sigma") (.var "y")
        (.one "obs_ind") ] }

/-- `LinearRegression.build_model`: adds the coordinates, registers `X` and
the first column of `y` as mutable data, and declares
`beta ~ Normal(0, 50)`, `sigma ~ HalfNormal(1)`, `mu = X @ beta`, and the
observed normal likelihood `y_hat`. -/
def LinearRegression.build_model (self : MBState) (X y : NDArray)
    (coords : Coords) : Except PyErr Model := do
  let m0 : Model := { self.model with coords := self.model.coords ++ coords }
  let y0 ← NDArray.col0 y
  .ok { m0 with decls := m0.decls ++
    [ .mutableData "X" X (.two "obs_ind" "coeffs"),
      .mutableData "y" y0 (.one "obs_ind"),
      .normal "beta" 0 50 (.one "coeffs"),
      .halfNormal "sigma" 1,
      .deterministic "mu" (.dot (.var "X") (.var "beta")) (.one "obs_ind"),
      .normalObserved "y_hat" (.var "mu") (.var "sigma") (.var "y")
        (.one "obs_ind") ] }

/-- The `priors` dictionary documented for
`InstrumentalVariableRegression.build_model`:
`{"mus": [...], "sigmas": [...], "eta": ..., "lkj_sd": ...}`. -/
structure IVPriors where
  mus : List ℚ
  sigmas : List ℚ
  eta : ℚ
  lkj_sd : ℚ
deriving DecidableEq, Repr

/-- `xs[i]` on a Python list: raises `IndexError` when out of range. -/
def py_index (xs : List ℚ) (i : Nat) : Except PyErr ℚ :=
  match xs.get? i with
  | some x => .ok x
  | none => .error (.indexError "list index out of range")

/-- `InstrumentalVariableRegression.build_model(X, Z, y, t, coords, priors)`:
declares `beta_t`, `beta_z` normal priors, an LKJ Cholesky covariance with a
HalfCauchy sd prior, the deterministic covariance, the two regression means,
their stack, and an observed multivariate-normal likelihood on the stacked
flattened `y` and `t`. -/
def InstrumentalVariableRegression.build_model (self : MBState)
    (X Z y t : NDArray) (coords : Coords) (priors : IVPriors) :
    Except PyErr Model := do
  let m0 : Model := { self.model with coords := self.model.coords ++ coords }
  let mu0 ← py_index priors.mus 0
  let s0 ← py_index priors.sigmas 0
  let mu1 ← py_index priors.mus 1
  let s1 ← py_index priors.sigmas 1
  let observed ← np_stack_axis1 (NDArray.flatten y) (NDArray.flatten t)
  .ok { m0 with decls := m0.decls ++
    [ .normal "beta_t" mu0 s0 (.one "instruments"),
      .normal "beta_z" mu1 s1 (.one "covariates"),
      .lkjCholeskyCov "chol_cov" priors.eta 2 priors.lkj_sd 2,
      .deterministic "cov"
        (.dot (.cholFactor "chol_cov") (.transpose (.cholFactor "chol_cov")))
        .noDims,
      .deterministic "mu_y" (.dot (.constArr X) (.var "beta_z")) .noDims,
      .deterministic "mu_t" (.dot (.constArr Z) (.var "beta_t")) .noDims,
      .deterministic "mu" (.stack (.var "mu_y") (.var "mu_t") 1) .noDims,
      .mvNormalObserved "likelihood" (.var "mu") (.cholFactor "chol_cov")
        observed (NDArray.shape0 X) 2 ] }

/-- `InstrumentalVariableRegression.fit(X, Z, y, t, coords, priors)`: the
overriding fit — same sampling pipeline as the base class, but with the
six-argument signature matching its `build_model`. -/
def InstrumentalVariableRegression.fit (engine : Engine) (self : MBState)
    (X Z y t : NDArray) (coords : Coords) (priors : IVPriors) :
    Except PyErr (MBState × IData) := do
  let m ← InstrumentalVariableRegression.build_model self X Z y t coords priors
  let idata0 ← engine.sample self.sample_kwargs m
  let prior ← engine.sample_prior_predictive m
  let idata1 := IData.extended idata0 prior
  let post ← engine.sample_posterior_predictive (some idata1) none false m
  let idata2 := IData.extended idata1 post
  .ok ({ self with model := m, idata := some idata2 }, idata2)

/-- The classes defined by the module: the abstract base plus the three
concrete model classes. -/
inductive ModelClass where
  | modelBuilder
  | weightedSumFitter
  | linearRegression
  | instrumentalVariableRegression
deriving DecidableEq, Repr

/-- The concrete (non-abstract) model classes the module defines, in source
order. -/
def concreteModelClasses : List ModelClass :=
  [ .weightedSumFitter, .linearRegression, .instrumentalVariableRegression ]

/-- The parameter list (excluding `self`) of each method a class itself
defines in its body, read off the source; `none` when the class does not
define the method and therefore inherits it. -/
def method_params (cls : ModelClass) (meth : String) : Option (List String) :=
  match cls, meth with
  | .modelBuilder, "__init__" => some ["sample_kwargs"]
  | .modelBuilder, "build_model" => some ["X", "y", "coords"]
  | .modelBuilder, "_data_setter" => some ["X"]
  | .modelBuilder, "fit" => some ["X", "y", "coords"]
  | .modelBuilder, "predict" => some ["X"]
  | .modelBuilder, "score" => some ["X", "y"]
  | .weightedSumFitter, "build_model" => some ["X", "y", "coords"]
  | .linearRegression, "build_model" => some ["X", "y", "coords"]
  | .instrumentalVariableRegression, "build_model" =>
      some ["X", "Z", "y", "t", "coords", "priors"]
  | .instrumentalVariableRegression, "fit" =>
      some ["X", "Z", "y", "t", "coords", "priors"]
  | _, _ => none

/-- The signature a method effectively has on a class: its own definition
when it overrides, otherwise the inherited `ModelBuilder` one. -/
def effective_params (cls : ModelClass) (meth : String) : Option (List String) :=
  match method_params cls meth with
  | some ps => some ps
  | none => method_params .modelBuilder meth

/-- The use case each concrete class is documented for (from the module and
class docstrings). -/
def docstring_use_case (cls : ModelClass) : String :=
  match cls with
  | .modelBuilder => "scikit-learn like API wrapper"
  | .weightedSumFitter => "synthetic control"
  | .linearRegression => "linear regression"
  | .instrumentalVariableRegression => "instrumental variable regression"

/-- Whether a declaration is a prior distribution declaration. -/
def RVDecl.isPrior : RVDecl → Bool
  | .dirichlet _ _ _ => true
  | .normal _ _ _ _ => true
  | .halfNormal _ _ => true
  | .lkjCholeskyCov _ _ _ _ _ => true
  | _ => false

/-- Whether a declaration is an observed likelihood. -/
def RVDecl.isLikelihood : RVDecl → Bool
  | .normalObserved _ _ _ _ _ => true
  | .mvNormalObserved _ _ _ _ _ _ => true
  | _ => false

/-- The mathematical support of the `Dirichlet(a)` distribution (the
semantics of `pm.Dirichlet`): vectors of the same length as `a` with strictly
positive entries summing to one. -/
def dirichletSupport (a : List ℚ) (v : List ℚ) : Prop :=
  v.length = a.length ∧ (∀ x ∈ v, 0 < x) ∧ v.sum = 1

instance (a v : List ℚ) : Decidable (dirichletSupport a v) := by
  unfold dirichletSupport; infer_instance

/-- A concrete 2x2 design matrix used to instantiate theorems. -/
def Xc : NDArray := .arr2 [[1, 0], [0, 1]]

/-- A concrete 2x2 outcome matrix used to instantiate theorems. -/
def Yc : NDArray := .arr2 [[1, 2], [3, 4]]

/-- A stub subclass `build_model` returning the empty model, used to
instantiate theorems that quantify over implementations. -/
def stubBuild : MBState → NDArray → NDArray → Coords → Except PyErr Model :=
  fun _ _ _ _ => .ok Model.empty

/-- C1: for every `ModelBuilder` subclass implementation of `build_model`,
`fit(X, y, coords)` first calls `build_model(X, y, coords)`, then draws the
posterior with the stored `sample_kwargs`, extends it with prior-predictive
and posterior-predictive samples, stores the combined inference data in
`idata`, and returns that same inference data. -/
theorem C1_fit_pipeline (engine : Engine)
    (build_model : MBState → NDArray → NDArray → Coords → Except PyErr Model)
    (self : MBState) (X y : NDArray) (coords : Coords)
    (m : Model) (i0 ip ipp : IData)
    (hb : build_model self X y coords = .ok m)
    (hs : engine.sample self.sample_kwargs m = .ok i0)
    (hp : engine.sample_prior_predictive m = .ok ip)
    (hpp : engine.sample_posterior_predictive (some (IData.extended i0 ip))
      none false m = .ok ipp) :
    ModelBuilder.fit engine build_model self X y coords =
      .ok ({ self with
               model := m,
               idata := some (IData.extended (IData.extended i0 ip) ipp) },
           IData.extended (IData.extended i0 ip) ipp) := by
  simp [ModelBuilder.fit, hb, hs, hp, hpp, bind, Except.bind]

/-- Witness for C1 at the stub subclass, the free engine, a fresh instance
and concrete data. -/
theorem C1_fit_pipeline_witness :
    (stubBuild (ModelBuilder.init none) Xc Yc [] = .ok Model.empty
      ∧ freeEngine.sample [] Model.empty = .ok (.fromSample [] Model.empty)
      ∧ freeEngine.sample_prior_predictive Model.empty =
          .ok (.priorPredictive Model.empty)
      ∧ freeEngine.sample_posterior_predictive
          (some (IData.extended (.fromSample [] Model.empty)
            (.priorPredictive Model.empty))) none false Model.empty =
          .ok (.posteriorPredictive
            (IData.extended (.fromSample [] Model.empty)
              (.priorPredictive Model.empty)) none Model.empty))
    ∧ ModelBuilder.fit freeEngine stubBuild (ModelBuilder.init none) Xc Yc [] =
      .ok ({ (ModelBuilder.init none) with
               model := Model.empty,
               idata := some (IData.extended
                 (IData.extended (.fromSample [] Model.empty)
                   (.priorPredictive Model.empty))
                 (.posteriorPredictive
                   (IData.extended (.fromSample [] Model.empty)
                     (.priorPredictive Model.empty)) none Model.empty)) },
           IData.extended
             (IData.extended (.fromSample [] Model.empty)
               (.priorPredictive Model.empty))
             (.posteriorPredictive
               (IData.extended (.fromSample [] Model.empty)
                 (.priorPredictive Model.empty)) none Model.empty)) :=
  ⟨⟨rfl, rfl, rfl, rfl⟩,
    C1_fit_pipeline freeEngine stubBuild (ModelBuilder.init none) Xc Yc []
      Model.empty (.fromSample [] Model.empty) (.priorPredictive Model.empty)
      (.posteriorPredictive
        (IData.extended (.fromSample [] Model.empty)
          (.priorPredictive Model.empty)) none Model.empty)
      rfl rfl rfl rfl⟩

/-- C6: `build_model` on a direct `ModelBuilder` instance always raises
`NotImplementedError`, so `fit` on the bare base class always fails at its
first step with that error, for every engine — and never reaches sampling:
the result does not depend on the engine at all. -/
theorem C6_base_build_model_raises (engine engine2 : Engine) (self : MBState)
    (X y : NDArray) (coords : Coords) :
    ModelBuilder.build_model self X y coords =
      .error (.notImplementedError "This method must be implemented by a subclass")
    ∧ ModelBuilder.fit engine ModelBuilder.build_model self X y coords =
      .error (.notImplementedError "This method must be implemented by a subclass")
    ∧ ModelBuilder.fit engine ModelBuilder.build_model self X y coords =
      ModelBuilder.fit engine2 ModelBuilder.build_model self X y coords := by
  refine ⟨rfl, ?_, ?_⟩ <;>
    simp [ModelBuilder.fit, ModelBuilder.build_model, bind, Except.bind]

/-- A concrete model holding an `"X"` mutable data variable, as left behind
by a successful `build_model`. -/
def modelWithX : Model :=
  { coords := [], decls := [RVDecl.mutableData "X" Xc (.two "obs_ind" "coeffs")] }

/-- A concrete already-fitted instance state. -/
def fittedState : MBState :=
  { idata := some (.fromSample [] modelWithX)
    sample_kwargs := []
    model := modelWithX }

/-- C3: on a fitted instance, `predict(X_new)` re-binds the model's mutable
data variable `"X"` to `X_new`, then draws posterior-predictive samples of
`"y_hat"` and `"mu"` conditioned on the stored `self.idata` (no re-fitting:
the samples are exactly the engine's posterior-predictive output for the
previously stored inference data), and returns those samples. -/
theorem C3_predict_rebinds_then_samples (engine : Engine) (self : MBState)
    (X : NDArray) (m1 : Model) (pp : IData)
    (hset : pm_set_data self.model "X" X = .ok m1)
    (hpp : engine.sample_posterior_predictive self.idata
      (some ["y_hat", "mu"]) false m1 = .ok pp) :
    ModelBuilder.predict engine self X = .ok ({ self with model := m1 }, pp) := by
  simp [ModelBuilder.predict, ModelBuilder.data_setter, hset, hpp,
    bind, Except.bind]

/-- Witness for C3 at the free engine and a concrete fitted state. -/
theorem C3_predict_rebinds_then_samples_witness :
    (pm_set_data fittedState.model "X" Yc =
        .ok { coords := [],
              decls := [RVDecl.mutableData "X" Yc (.two "obs_ind" "coeffs")] }
      ∧ freeEngine.sample_posterior_predictive fittedState.idata
          (some ["y_hat", "mu"]) false
          { coords := [],
            decls := [RVDecl.mutableData "X" Yc (.two "obs_ind" "coeffs")] } =
        .ok (.posteriorPredictive (.fromSample [] modelWithX)
          (some ["y_hat", "mu"])
          { coords := [],
            decls := [RVDecl.mutableData "X" Yc (.two "obs_ind" "coeffs")] }))
    ∧ ModelBuilder.predict freeEngine fittedState Yc =
      .ok ({ fittedState with
               model := { coords := [],
                          decls := [RVDecl.mutableData "X" Yc
                            (.two "obs_ind" "coeffs")] } },
           .posteriorPredictive (.fromSample [] modelWithX)
             (some ["y_hat", "mu"])
             { coords := [],
               decls := [RVDecl.mutableData "X" Yc (.two "obs_ind" "coeffs")] }) :=
  ⟨⟨by decide, rfl⟩,
    C3_predict_rebinds_then_samples freeEngine fittedState Yc
      { coords := [],
        decls := [RVDecl.mutableData "X" Yc (.two "obs_ind" "coeffs")] }
      (.posteriorPredictive (.fromSample [] modelWithX)
        (some ["y_hat", "mu"])
        { coords := [],
          decls := [RVDecl.mutableData "X" Yc (.two "obs_ind" "coeffs")] })
      (by decide) rfl⟩

/-- Re-binding a data value never changes which declaration a name matches. -/
theorem isMutableDataNamed_setDataValue (name name2 : String) (v : NDArray)
    (d : RVDecl) :
    (RVDecl.setDataValue name v d).isMutableDataNamed name2 =
      d.isMutableDataNamed name2 := by
  cases d with
  | mutableData n old dims =>
      by_cases h : n = name
      · subst h; simp [RVDecl.setDataValue, RVDecl.isMutableDataNamed]
      · simp [RVDecl.setDataValue, h]
  | dirichlet n a dims => rfl
  | normal n mu sigma dims => rfl
  | halfNormal n sigma => rfl
  | lkjCholeskyCov n eta k b s => rfl
  | deterministic n v2 dims => rfl
  | normalObserved n mu sigma o dims => rfl
  | mvNormalObserved n mu chol o s0 s1 => rfl

/-- Re-binding the same data variable twice keeps only the second value. -/
theorem setDataValue_setDataValue (name : String) (v1 v2 : NDArray)
    (d : RVDecl) :
    RVDecl.setDataValue name v2 (RVDecl.setDataValue name v1 d) =
      RVDecl.setDataValue name v2 d := by
  cases d with
  | mutableData n old dims =>
      by_cases h : n = name
      · subst h; simp [RVDecl.setDataValue]
      · simp [RVDecl.setDataValue, h]
  | dirichlet n a dims => rfl
  | normal n mu sigma dims => rfl
  | halfNormal n sigma => rfl
  | lkjCholeskyCov n eta k b s => rfl
  | deterministic n v dims => rfl
  | normalObserved n mu sigma o dims => rfl
  | mvNormalObserved n mu chol o s0 s1 => rfl

/-- Inversion for a successful `predict`: the new state re-binds only the
`"X"` data variable and keeps everything else. -/
theorem predict_ok_state (engine : Engine) (self s1 : MBState)
    (X : NDArray) (p1 : IData)
    (h : ModelBuilder.predict engine self X = .ok (s1, p1)) :
    s1.idata = self.idata ∧ s1.sample_kwargs = self.sample_kwargs
    ∧ s1.model.coords = self.model.coords
    ∧ s1.model.decls = self.model.decls.map (RVDecl.setDataValue "X" X) := by
  unfold ModelBuilder.predict ModelBuilder.data_setter pm_set_data at h
  by_cases hc : self.model.decls.any (RVDecl.isMutableDataNamed "X")
  · simp only [hc, if_true, bind, Except.bind] at h
    cases hpp : engine.sample_posterior_predictive self.idata
        (some ["y_hat", "mu"]) false
        { self.model with decls := self.model.decls.map (RVDecl.setDataValue "X" X) } with
    | error e => rw [hpp] at h; exact absurd h (by simp)
    | ok pp =>
      rw [hpp] at h
      simp only [Except.ok.injEq, Prod.mk.injEq] at h
      obtain ⟨hs, _⟩ := h
      subst hs
      exact ⟨rfl, rfl, rfl, rfl⟩
  · simp only [hc, if_false, bind, Except.bind] at h
    exact absurd h (by simp)

/-- C10: `predict` mutates only the model's shared `"X"` data variable; the
instance's `idata` and `sample_kwargs` are left unchanged, and a second
`predict` with different data replaces (never accumulates) the binding while
the stored inference data still equals the original. -/
theorem C10_predict_frame (engine : Engine) (self s1 s2 : MBState)
    (X1 X2 : NDArray) (p1 p2 : IData)
    (h1 : ModelBuilder.predict engine self X1 = .ok (s1, p1))
    (h2 : ModelBuilder.predict engine s1 X2 = .ok (s2, p2)) :
    s1.idata = self.idata ∧ s1.sample_kwargs = self.sample_kwargs
    ∧ s1.model.coords = self.model.coords
    ∧ s1.model.decls = self.model.decls.map (RVDecl.setDataValue "X" X1)
    ∧ s2.idata = self.idata ∧ s2.sample_kwargs = self.sample_kwargs
    ∧ s2.model.coords = self.model.coords
    ∧ s2.model.decls = self.model.decls.map (RVDecl.setDataValue "X" X2) := by
  obtain ⟨a1, b1, c1, d1⟩ := predict_ok_state engine self s1 X1 p1 h1
  obtain ⟨a2, b2, c2, d2⟩ := predict_ok_state engine s1 s2 X2 p2 h2
  refine ⟨a1, b1, c1, d1, a2.trans a1, b2.trans b1, c2.trans c1, ?_⟩
  rw [d2, d1, List.map_map]
  congr 1
  funext d
  exact setDataValue_setDataValue "X" X1 X2 d

/-- The model of `fittedState` after re-binding `"X"` to `Yc`. -/
def modelWithXY : Model :=
  { coords := [], decls := [RVDecl.mutableData "X" Yc (.two "obs_ind" "coeffs")] }

/-- Witness for C10 at the free engine with two successive predictions. -/
theorem C10_predict_frame_witness :
    (ModelBuilder.predict freeEngine fittedState Yc =
        .ok ({ fittedState with model := modelWithXY },
          .posteriorPredictive (.fromSample [] modelWithX)
            (some ["y_hat", "mu"]) modelWithXY)
      ∧ ModelBuilder.predict freeEngine { fittedState with model := modelWithXY }
          Xc =
        .ok ({ fittedState with model := modelWithX },
          .posteriorPredictive (.fromSample [] modelWithX)
            (some ["y_hat", "mu"]) modelWithX))
    ∧ ({ fittedState with model := modelWithXY } : MBState).idata = fittedState.idata
    ∧ ({ fittedState with model := modelWithXY } : MBState).sample_kwargs =
        fittedState.sample_kwargs
    ∧ modelWithXY.coords = fittedState.model.coords
    ∧ modelWithXY.decls =
        fittedState.model.decls.map (RVDecl.setDataValue "X" Yc)
    ∧ ({ fittedState with model := modelWithX } : MBState).idata = fittedState.idata
    ∧ ({ fittedState with model := modelWithX } : MBState).sample_kwargs =
        fittedState.sample_kwargs
    ∧ modelWithX.coords = fittedState.model.coords
    ∧ modelWithX.decls =
        fittedState.model.decls.map (RVDecl.setDataValue "X" Xc) :=
  ⟨⟨by decide, by decide⟩,
    C10_predict_frame freeEngine fittedState
      { fittedState with model := modelWithXY }
      { fittedState with model := modelWithX } Yc Xc
      (.posteriorPredictive (.fromSample [] modelWithX)
        (some ["y_hat", "mu"]) modelWithXY)
      (.posteriorPredictive (.fromSample [] modelWithX)
        (some ["y_hat", "mu"]) modelWithX)
      (by decide) (by decide)⟩

/-- C4: `score(X, y)` is exactly the external `r2_score` applied to the
flattened `y` and the transposed `"y_hat"` posterior-predictive samples
extracted from `predict(X)`: the wrapper adds no arithmetic of its own. -/
theorem C4_score_delegates (engine : Engine) (self self1 : MBState)
    (X y : NDArray) (pp : IData)
    (h : ModelBuilder.predict engine self X = .ok (self1, pp)) :
    ModelBuilder.score engine self X y =
      .ok (self1, R2Score.r2_score (NDArray.flatten y)
        (ExtractedSamples.extractTValues pp "posterior_predictive" "y_hat")) := by
  simp [ModelBuilder.score, h, bind, Except.bind]

/-- Witness for C4 at the free engine and the concrete fitted state. -/
theorem C4_score_delegates_witness :
    (ModelBuilder.predict freeEngine fittedState Yc =
        .ok ({ fittedState with model := modelWithXY },
          .posteriorPredictive (.fromSample [] modelWithX)
            (some ["y_hat", "mu"]) modelWithXY))
    ∧ ModelBuilder.score freeEngine fittedState Yc Yc =
      .ok ({ fittedState with model := modelWithXY },
        R2Score.r2_score (NDArray.flatten Yc)
          (ExtractedSamples.extractTValues
            (.posteriorPredictive (.fromSample [] modelWithX)
              (some ["y_hat", "mu"]) modelWithXY)
            "posterior_predictive" "y_hat")) :=
  ⟨by decide,
    C4_score_delegates freeEngine fittedState
      { fittedState with model := modelWithXY } Yc Yc
      (.posteriorPredictive (.fromSample [] modelWithX)
        (some ["y_hat", "mu"]) modelWithXY)
      (by decide)⟩

/-- An engine whose posterior sampler fails outright. -/
def sampleFailEngine : Engine where
  sample := fun _ _ => .error (.libraryError "sample failed")
  sample_prior_predictive := freeEngine.sample_prior_predictive
  sample_posterior_predictive := freeEngine.sample_posterior_predictive

/-- An engine whose prior-predictive sampler fails. -/
def priorFailEngine : Engine where
  sample := freeEngine.sample
  sample_prior_predictive := fun _ => .error (.libraryError "prior failed")
  sample_posterior_predictive := freeEngine.sample_posterior_predictive

/-- An engine whose posterior-predictive sampler fails. -/
def postFailEngine : Engine where
  sample := freeEngine.sample
  sample_prior_predictive := freeEngine.sample_prior_predictive
  sample_posterior_predictive := fun _ _ _ _ => .error (.libraryError "post failed")

/-- C5: no wrapper method catches, retries or transforms failures.  A failing
`build_model`, `pm.sample`, `pm.sample_prior_predictive` or
`pm.sample_posterior_predictive` makes `fit` return the very same error; a
failing `pm.set_data` or posterior-predictive call makes `predict` (and hence
`score`) return the very same error; and on a never-fitted bare instance
`predict` and `score` fail with the library's own `KeyError "X"` from
`pm.set_data`, not a wrapper-defined error. -/
theorem C5_errors_propagate_unchanged
    (engineS engineP enginePP engineA : Engine)
    (build : MBState → NDArray → NDArray → Coords → Except PyErr Model)
    (self self2 self3 : MBState) (m m3 : Model)
    (X y X2 y2 X3 : NDArray) (coords : Coords)
    (e eS eP ePP eSet eR : PyErr) (i0 ip : IData)
    (hb : build self X y coords = .ok m)
    (hS : engineS.sample self.sample_kwargs m = .error eS)
    (hP1 : engineP.sample self.sample_kwargs m = .ok i0)
    (hP2 : engineP.sample_prior_predictive m = .error eP)
    (hQ1 : enginePP.sample self.sample_kwargs m = .ok i0)
    (hQ2 : enginePP.sample_prior_predictive m = .ok ip)
    (hQ3 : enginePP.sample_posterior_predictive (some (.extended i0 ip))
      none false m = .error ePP)
    (hset : pm_set_data self2.model "X" X2 = .error eSet)
    (hR1 : pm_set_data self3.model "X" X3 = .ok m3)
    (hR2 : engineA.sample_posterior_predictive self3.idata
      (some ["y_hat", "mu"]) false m3 = .error eR) :
    ModelBuilder.fit engineA (fun _ _ _ _ => .error e) self X y coords = .error e
    ∧ ModelBuilder.fit engineS build self X y coords = .error eS
    ∧ ModelBuilder.fit engineP build self X y coords = .error eP
    ∧ ModelBuilder.fit enginePP build self X y coords = .error ePP
    ∧ ModelBuilder.predict engineA self2 X2 = .error eSet
    ∧ ModelBuilder.score engineA self2 X2 y2 = .error eSet
    ∧ ModelBuilder.predict engineA self3 X3 = .error eR
    ∧ ModelBuilder.score engineA self3 X3 y2 = .error eR
    ∧ ModelBuilder.predict engineA (ModelBuilder.init none) X2 =
        .error (.keyError "X")
    ∧ ModelBuilder.score engineA (ModelBuilder.init none) X2 y2 =
        .error (.keyError "X") := by
  refine ⟨?_, ?_, ?_, ?_, ?_, ?_, ?_, ?_, ?_, ?_⟩
  · simp [ModelBuilder.fit, bind, Except.bind]
  · simp [ModelBuilder.fit, hb, hS, bind, Except.bind]
  · simp [ModelBuilder.fit, hb, hP1, hP2, bind, Except.bind]
  · simp [ModelBuilder.fit, hb, hQ1, hQ2, hQ3, bind, Except.bind]
  · simp [ModelBuilder.predict, ModelBuilder.data_setter, hset, bind, Except.bind]
  · simp [ModelBuilder.score, ModelBuilder.predict, ModelBuilder.data_setter,
      hset, bind, Except.bind]
  · simp [ModelBuilder.predict, ModelBuilder.data_setter, hR1, hR2,
      bind, Except.bind]
  · simp [ModelBuilder.score, ModelBuilder.predict, ModelBuilder.data_setter,
      hR1, hR2, bind, Except.bind]
  · simp [ModelBuilder.predict, ModelBuilder.data_setter, pm_set_data,
      ModelBuilder.init, Model.empty, bind, Except.bind]
  · simp [ModelBuilder.score, ModelBuilder.predict, ModelBuilder.data_setter,
      pm_set_data, ModelBuilder.init, Model.empty, bind, Except.bind]

/-- Witness for C5: concrete failing engines, a stub subclass, and concrete
fitted / unfitted states. -/
theorem C5_errors_propagate_unchanged_witness :
    (stubBuild (ModelBuilder.init none) Xc Yc [] = .ok Model.empty
      ∧ sampleFailEngine.sample [] Model.empty =
          .error (.libraryError "sample failed")
      ∧ priorFailEngine.sample [] Model.empty =
          .ok (.fromSample [] Model.empty)
      ∧ priorFailEngine.sample_prior_predictive Model.empty =
          .error (.libraryError "prior failed")
      ∧ postFailEngine.sample [] Model.empty =
          .ok (.fromSample [] Model.empty)
      ∧ postFailEngine.sample_prior_predictive Model.empty =
          .ok (.priorPredictive Model.empty)
      ∧ postFailEngine.sample_posterior_predictive
          (some (.extended (.fromSample [] Model.empty)
            (.priorPredictive Model.empty))) none false Model.empty =
          .error (.libraryError "post failed")
      ∧ pm_set_data (ModelBuilder.init none).model "X" Xc =
          .error (.keyError "X")
      ∧ pm_set_data fittedState.model "X" Yc = .ok modelWithXY
      ∧ postFailEngine.sample_posterior_predictive fittedState.idata
          (some ["y_hat", "mu"]) false modelWithXY =
          .error (.libraryError "post failed"))
    ∧ ModelBuilder.fit postFailEngine
        (fun _ _ _ _ => .error (.typeError "boom"))
        (ModelBuilder.init none) Xc Yc [] = .error (.typeError "boom")
    ∧ ModelBuilder.fit sampleFailEngine stubBuild (ModelBuilder.init none)
        Xc Yc [] = .error (.libraryError "sample failed")
    ∧ ModelBuilder.fit priorFailEngine stubBuild (ModelBuilder.init none)
        Xc Yc [] = .error (.libraryError "prior failed")
    ∧ ModelBuilder.fit postFailEngine stubBuild (ModelBuilder.init none)
        Xc Yc [] = .error (.libraryError "post failed")
    ∧ ModelBuilder.predict postFailEngine (ModelBuilder.init none) Xc =
        .error (.keyError "X")
    ∧ ModelBuilder.score postFailEngine (ModelBuilder.init none) Xc Yc =
        .error (.keyError "X")
    ∧ ModelBuilder.predict postFailEngine fittedState Yc =
        .error (.libraryError "post failed")
    ∧ ModelBuilder.score postFailEngine fittedState Yc Yc =
        .error (.libraryError "post failed")
    ∧ ModelBuilder.predict postFailEngine (ModelBuilder.init none) Xc =
        .error (.keyError "X")
    ∧ ModelBuilder.score postFailEngine (ModelBuilder.init none) Xc Yc =
        .error (.keyError "X") :=
  ⟨⟨rfl, rfl, rfl, rfl, rfl, rfl, rfl, by decide, by decide, rfl⟩,
    C5_errors_propagate_unchanged sampleFailEngine priorFailEngine
      postFailEngine postFailEngine stubBuild
      (ModelBuilder.init none) (ModelBuilder.init none) fittedState
      Model.empty modelWithXY Xc Yc Xc Yc Yc []
      (.typeError "boom") (.libraryError "sample failed")
      (.libraryError "prior failed") (.libraryError "post failed")
      (.keyError "X") (.libraryError "post failed")
      (.fromSample [] Model.empty) (.priorPredictive Model.empty)
      rfl rfl rfl rfl rfl rfl rfl (by decide) (by decide) rfl⟩

/-- C9: `WeightedSumFitter.build_model` and `LinearRegression.build_model`
read the outcome as `y[:, 0]`: a one-dimensional `y` fails at that indexing,
and two inputs differing only in columns of `y` other than the first produce
identical built models and identical `fit` behaviour. -/
theorem C9_y_first_column_only (engine : Engine) (self : MBState)
    (X y y2 : NDArray) (coords : Coords) (v : List ℚ)
    (rows rows2 : List (List ℚ)) (n : Nat)
    (hX : NDArray.shape1 X = .ok n)
    (hy : y = .arr2 rows) (hy2 : y2 = .arr2 rows2)
    (hne : rows.all (fun r => !r.isEmpty) = true)
    (hne2 : rows2.all (fun r => !r.isEmpty) = true)
    (hfst : rows.map (fun r => r.headD 0) = rows2.map (fun r => r.headD 0)) :
    (WeightedSumFitter.build_model self X (.arr1 v) coords =
        .error (.indexError "too many indices for array")
      ∧ LinearRegression.build_model self X (.arr1 v) coords =
        .error (.indexError "too many indices for array"))
    ∧ WeightedSumFitter.build_model self X y coords =
        WeightedSumFitter.build_model self X y2 coords
    ∧ LinearRegression.build_model self X y coords =
        LinearRegression.build_model self X y2 coords
    ∧ ModelBuilder.fit engine WeightedSumFitter.build_model self X y coords =
        ModelBuilder.fit engine WeightedSumFitter.build_model self X y2 coords
    ∧ ModelBuilder.fit engine LinearRegression.build_model self X y coords =
        ModelBuilder.fit engine LinearRegression.build_model self X y2 coords := by
  have hcol : NDArray.col0 y = NDArray.col0 y2 := by
    subst hy hy2
    simp [NDArray.col0, hne, hne2]
    simpa [List.headD_eq_head?] using hfst
  have hwsf : WeightedSumFitter.build_model self X y coords =
      WeightedSumFitter.build_model self X y2 coords := by
    simp [WeightedSumFitter.build_model, hcol]
  have hlr : LinearRegression.build_model self X y coords =
      LinearRegression.build_model self X y2 coords := by
    simp [LinearRegression.build_model, hcol]
  refine ⟨⟨?_, ?_⟩, hwsf, hlr, ?_, ?_⟩
  · simp [WeightedSumFitter.build_model, hX, NDArray.col0, bind, Except.bind]
  · simp [LinearRegression.build_model, NDArray.col0, bind, Except.bind]
  · simp [ModelBuilder.fit, hwsf]
  · simp [ModelBuilder.fit, hlr]

/-- Witness for C9: a 2-column design matrix and two outcome matrices that
agree in their first column only. -/
theorem C9_y_first_column_only_witness :
    (NDArray.shape1 Xc = .ok 2
      ∧ (NDArray.arr2 [[1, 2], [3, 4]] : NDArray) = .arr2 [[1, 2], [3, 4]]
      ∧ (NDArray.arr2 [[1, 5], [3, 6]] : NDArray) = .arr2 [[1, 5], [3, 6]]
      ∧ ([[(1 : ℚ), 2], [3, 4]].all (fun r => !r.isEmpty) = true)
      ∧ ([[(1 : ℚ), 5], [3, 6]].all (fun r => !r.isEmpty) = true)
      ∧ [[(1 : ℚ), 2], [3, 4]].map (fun r => r.headD 0) =
          [[(1 : ℚ), 5], [3, 6]].map (fun r => r.headD 0))
    ∧ (WeightedSumFitter.build_model (ModelBuilder.init none) Xc
          (.arr1 [1, 2]) [] = .error (.indexError "too many indices for array")
      ∧ LinearRegression.build_model (ModelBuilder.init none) Xc
          (.arr1 [1, 2]) [] = .error (.indexError "too many indices for array"))
    ∧ WeightedSumFitter.build_model (ModelBuilder.init none) Xc
        (.arr2 [[1, 2], [3, 4]]) [] =
      WeightedSumFitter.build_model (ModelBuilder.init none) Xc
        (.arr2 [[1, 5], [3, 6]]) []
    ∧ LinearRegression.build_model (ModelBuilder.init none) Xc
        (.arr2 [[1, 2], [3, 4]]) [] =
      LinearRegression.build_model (ModelBuilder.init none) Xc
        (.arr2 [[1, 5], [3, 6]]) []
    ∧ ModelBuilder.fit freeEngine WeightedSumFitter.build_model
        (ModelBuilder.init none) Xc (.arr2 [[1, 2], [3, 4]]) [] =
      ModelBuilder.fit freeEngine WeightedSumFitter.build_model
        (ModelBuilder.init none) Xc (.arr2 [[1, 5], [3, 6]]) []
    ∧ ModelBuilder.fit freeEngine LinearRegression.build_model
        (ModelBuilder.init none) Xc (.arr2 [[1, 2], [3, 4]]) [] =
      ModelBuilder.fit freeEngine LinearRegression.build_model
        (ModelBuilder.init none) Xc (.arr2 [[1, 5], [3, 6]]) [] :=
  ⟨⟨by decide, rfl, rfl, by decide, by decide, by decide⟩,
    C9_y_first_column_only freeEngine (ModelBuilder.init none) Xc
      (.arr2 [[1, 2], [3, 4]]) (.arr2 [[1, 5], [3, 6]]) [] [1, 2]
      [[1, 2], [3, 4]] [[1, 5], [3, 6]] 2
      (by decide) rfl rfl (by decide) (by decide) (by decide)⟩

/-- C8: `WeightedSumFitter.build_model` gives `beta` a `Dirichlet(1, ..., 1)`
prior over the `X.shape[1]` predictors, and every vector in the support of
that Dirichlet lies on the probability simplex: each weight non-negative and
the weights summing to one. -/
theorem C8_wsf_dirichlet_simplex (self : MBState) (X y : NDArray)
    (coords : Coords) (n : Nat) (y0 : NDArray) (v : List ℚ)
    (hX : NDArray.shape1 X = .ok n)
    (hy : NDArray.col0 y = .ok y0)
    (hv : dirichletSupport (List.replicate n 1) v) :
    (∃ m : Model, WeightedSumFitter.build_model self X y coords = .ok m
      ∧ RVDecl.dirichlet "beta" (List.replicate n 1) (.one "coeffs") ∈ m.decls
      ∧ (List.replicate n (1 : ℚ)).length = n)
    ∧ v.length = n ∧ (∀ x ∈ v, 0 ≤ x) ∧ v.sum = 1 := by
  obtain ⟨hlen, hpos, hsum⟩ := hv
  have hbuild : WeightedSumFitter.build_model self X y coords =
      .ok { coords := self.model.coords ++ coords,
            decls := self.model.decls ++
              [ .mutableData "X" X (.two "obs_ind" "coeffs"),
                .mutableData "y" y0 (.one "obs_ind"),
                .dirichlet "beta" (List.replicate n 1) (.one "coeffs"),
                .halfNormal "sigma" 1,
                .deterministic "mu" (.dot (.var "X") (.var "beta"))
                  (.one "obs_ind"),
                .normalObserved "y_hat" (.var "mu") (.var "sigma") (.var "y")
                  (.one "obs_ind") ] } := by
    simp [WeightedSumFitter.build_model, hX, hy, bind, Except.bind]
  exact ⟨⟨_, hbuild, by simp, by simp⟩, by simpa using hlen,
    fun x hx => le_of_lt (hpos x hx), hsum⟩

/-- Witness for C8 at a two-predictor design and the uniform weight vector. -/
theorem C8_wsf_dirichlet_simplex_witness :
    (NDArray.shape1 Xc = .ok 2
      ∧ NDArray.col0 Yc = .ok (.arr1 [1, 3])
      ∧ dirichletSupport (List.replicate 2 1) [1/2, 1/2])
    ∧ ((∃ m : Model,
        WeightedSumFitter.build_model (ModelBuilder.init none) Xc Yc [] = .ok m
        ∧ RVDecl.dirichlet "beta" (List.replicate 2 1) (.one "coeffs") ∈ m.decls
        ∧ (List.replicate 2 (1 : ℚ)).length = 2)
      ∧ ([(1 : ℚ)/2, 1/2].length = 2)
      ∧ (∀ x ∈ [(1 : ℚ)/2, 1/2], 0 ≤ x)
      ∧ ([(1 : ℚ)/2, 1/2].sum = 1)) :=
  ⟨⟨by decide, by decide, by norm_num [dirichletSupport]⟩,
    C8_wsf_dirichlet_simplex (ModelBuilder.init none) Xc Yc [] 2
      (.arr1 [1, 3]) [1/2, 1/2] (by decide) (by decide)
      (by norm_num [dirichletSupport])⟩

/-- Whether a (possibly failed) model build declares at least one prior
distribution and at least one observed likelihood. -/
def declaresPriorsAndLikelihood (r : Except PyErr Model) : Bool :=
  match r with
  | .ok m => m.decls.any RVDecl.isPrior && m.decls.any RVDecl.isLikelihood
  | .error _ => false

/-- The documented example priors for the instrumental-variable model. -/
def ivPriorsC : IVPriors := { mus := [0, 0], sigmas := [1, 1], eta := 2, lkj_sd := 2 }

/-- C7: the module provides exactly three concrete model classes — one per
named use case — and each one's `build_model` declares priors and a
likelihood (shown on concrete valid inputs). -/
theorem C7_three_concrete_models :
    (∀ cls : ModelClass, cls = .modelBuilder ∨ cls ∈ concreteModelClasses)
    ∧ concreteModelClasses =
        [.weightedSumFitter, .linearRegression, .instrumentalVariableRegression]
    ∧ concreteModelClasses.length = 3
    ∧ concreteModelClasses.Nodup
    ∧ (ModelClass.modelBuilder ∉ concreteModelClasses)
    ∧ docstring_use_case .weightedSumFitter = "synthetic control"
    ∧ docstring_use_case .linearRegression = "linear regression"
    ∧ docstring_use_case .instrumentalVariableRegression =
        "instrumental variable regression"
    ∧ (∀ cls ∈ concreteModelClasses, method_params cls "build_model" ≠ none)
    ∧ declaresPriorsAndLikelihood
        (WeightedSumFitter.build_model (ModelBuilder.init none) Xc Yc []) = true
    ∧ declaresPriorsAndLikelihood
        (LinearRegression.build_model (ModelBuilder.init none) Xc Yc []) = true
    ∧ declaresPriorsAndLikelihood
        (InstrumentalVariableRegression.build_model (ModelBuilder.init none)
          Xc Xc (.arr1 [1, 2]) (.arr1 [3, 4]) [] ivPriorsC) = true := by
  refine ⟨fun cls => ?_, rfl, rfl, by decide, by decide, rfl, rfl, rfl,
    by decide, by decide, by decide, by decide⟩
  cases cls <;> simp [concreteModelClasses]

/-- Counterexample to C2: `InstrumentalVariableRegression` overrides `fit`
with a six-parameter signature `(X, Z, y, t, coords, priors)`, so the claim
that every subclass keeps the `ModelBuilder` method signatures unchanged is
false at the concrete class `InstrumentalVariableRegression` and method
`fit`. -/
theorem C2_counterexample :
    method_params .instrumentalVariableRegression "fit" ≠ none
    ∧ effective_params .instrumentalVariableRegression "fit" ≠
        effective_params .modelBuilder "fit"
    ∧ effective_params .instrumentalVariableRegression "fit" =
        some ["X", "Z", "y", "t", "coords", "priors"]
    ∧ effective_params .modelBuilder "fit" = some ["X", "y", "coords"] := by
  refine ⟨by decide, by decide, rfl, rfl⟩

/-- C2 (amended): `WeightedSumFitter` and `LinearRegression` define only
`build_model` and inherit `fit`, `predict` and `score` from `ModelBuilder`
with unchanged signatures; `InstrumentalVariableRegression` keeps the
inherited `predict` and `score` but overrides `build_model` and `fit` with a
six-argument signature — and its overriding `fit` follows exactly the base
class's control flow (build the model, sample the posterior with the stored
kwargs, extend with prior-predictive and posterior-predictive samples, store
and return the combined inference data). -/
theorem C2_amended_subclass_refinement :
    method_params .weightedSumFitter "fit" = none
    ∧ method_params .weightedSumFitter "predict" = none
    ∧ method_params .weightedSumFitter "score" = none
    ∧ method_params .weightedSumFitter "_data_setter" = none
    ∧ effective_params .weightedSumFitter "fit" =
        effective_params .modelBuilder "fit"
    ∧ effective_params .weightedSumFitter "predict" =
        effective_params .modelBuilder "predict"
    ∧ effective_params .weightedSumFitter "score" =
        effective_params .modelBuilder "score"
    ∧ method_params .linearRegression "fit" = none
    ∧ method_params .linearRegression "predict" = none
    ∧ method_params .linearRegression "score" = none
    ∧ method_params .linearRegression "_data_setter" = none
    ∧ effective_params .linearRegression "fit" =
        effective_params .modelBuilder "fit"
    ∧ effective_params .linearRegression "predict" =
        effective_params .modelBuilder "predict"
    ∧ effective_params .linearRegression "score" =
        effective_params .modelBuilder "score"
    ∧ method_params .instrumentalVariableRegression "predict" = none
    ∧ method_params .instrumentalVariableRegression "score" = none
    ∧ effective_params .instrumentalVariableRegression "predict" =
        effective_params .modelBuilder "predict"
    ∧ effective_params .instrumentalVariableRegression "score" =
        effective_params .modelBuilder "score"
    ∧ (∀ (engine : Engine) (self : MBState) (X Z y t : NDArray)
          (coords : Coords) (priors : IVPriors),
        InstrumentalVariableRegression.fit engine self X Z y t coords priors =
          ModelBuilder.fit engine
            (fun s _ _ _ =>
              InstrumentalVariableRegression.build_model s X Z y t coords priors)
            self X y coords) := by
  refine ⟨rfl, rfl, rfl, rfl, rfl, rfl, rfl, rfl, rfl, rfl, rfl, rfl, rfl,
    rfl, rfl, rfl, rfl, rfl, ?_⟩
  intro engine self X Z y t coords priors
  rfl
